import Mathlib

/-!
Shallow embedding of the WhatsApp bot `app.py` (single-file Flask service).

External effects (Mongo reads/writes, Gemini responses, wall-clock time) are
modelled as explicit inputs; database writes are recorded as `Action` values
so that theorems can speak about which store operations a code path performs.
Python strings are Lean `String`s (character-for-character); Python floats
(timestamps, cooldown seconds) are modelled as rationals `ℚ`, which preserves
the order comparisons the code performs.
-/

namespace WABot

/-- Python `str.strip()` (both-ends whitespace strip) on a character list. -/
def stripL (l : List Char) : List Char :=
  ((l.dropWhile Char.isWhitespace).reverse.dropWhile Char.isWhitespace).reverse

/-- Python `str.rstrip()` on a character list. -/
def rstripL (l : List Char) : List Char :=
  (l.reverse.dropWhile Char.isWhitespace).reverse

/-- Python `str.strip()` on a `String`. -/
def pyStrip (s : String) : String := ⟨stripL s.data⟩

/-- Python `str.rstrip()` on a `String`. -/
def pyRstrip (s : String) : String := ⟨rstripL s.data⟩

/-- Python `str.lower()` (ASCII case-fold suffices for the code's uses). -/
def pyLower (s : String) : String := ⟨s.data.map Char.toLower⟩

/-- Whether `needle` occurs at the start of `hay`. -/
def leadsWith : List Char → List Char → Bool
  | [], _ => true
  | _ :: _, [] => false
  | a :: as, b :: bs => a == b && leadsWith as bs

/-- Python `needle in hay` substring test, on character lists. -/
def containsChunk (needle : List Char) : List Char → Bool
  | [] => leadsWith needle []
  | c :: rest => leadsWith needle (c :: rest) || containsChunk needle rest

/-- Python `needle in hay` for strings. -/
def pyIn (needle hay : String) : Bool := containsChunk needle.data hay.data

/-- Configuration surface of the service (each field is an env-overridable
value in `app.py`, shown with its default in `defaultConfig`). -/
structure Config where
  CONTEXT_TURNS : Nat
  SUMMARIZE_MIN_NEW : Nat
  SUMMARIZE_MAX_CHUNK : Nat
  SUMMARY_MAX_CHARS : Nat
  SUMMARY_COOLDOWN_SECONDS : ℚ
  USER_COOLDOWN_SECONDS : ℚ
  GEMINI_MAX_RETRIES : Nat
  RATE_LIMIT_MESSAGE : String
  GENERIC_FAIL_MESSAGE : String
  deriving Repr

/-- Defaults as read by `app.py` when no env override is present. -/
def defaultConfig : Config where
  CONTEXT_TURNS := 10
  SUMMARIZE_MIN_NEW := 40
  SUMMARIZE_MAX_CHUNK := 60
  SUMMARY_MAX_CHARS := 3500
  SUMMARY_COOLDOWN_SECONDS := 180
  USER_COOLDOWN_SECONDS := 2
  GEMINI_MAX_RETRIES := 4
  RATE_LIMIT_MESSAGE := "Iâ€™m getting rate-limited right now. Please try again in ~30 seconds."
  GENERIC_FAIL_MESSAGE := "Iâ€™m having trouble right now. Try again in a moment."

/-! ### Gemini upstream call with retries (`_call_gemini_with_retries`) -/

/-- Outcome of one upstream attempt: either a response (with its `resp.text`,
`""` standing for a blank/None text) or a raised exception with message
`str(e)`. The sequence of outcomes is an input (environment oracle). -/
inductive Attempt
  | ok (text : String)
  | exn (msg : String)
  deriving Repr, DecidableEq

/-- The two error codes `_call_gemini_with_retries` can return. -/
inductive ErrCode
  | RATE_LIMIT
  | OTHER
  deriving Repr, DecidableEq

/-- The `(text, err_code, attempts made)` result of the retry loop. -/
structure CallResult where
  text : Option String
  err : Option ErrCode
  attemptsMade : Nat
  deriving Repr, DecidableEq

/-- The `for attempt in range(1, GEMINI_MAX_RETRIES + 1)` loop body: on a
response, strip the text and substitute `"..."` for blank; on an exception,
remember `str(e).lower()` and try again.  Returns the successful text (if
any), the last failure message, and how many upstream attempts were made. -/
def runAttempts (atts : Nat → Attempt) : Nat → Nat → String → Option String × String × Nat
  | 0, i, lastMsg => (none, lastMsg, i)
  | n + 1, i, lastMsg =>
    match atts i with
    | .ok t =>
        let s := pyStrip t
        (some (if s = "" then "..." else s), lastMsg, i + 1)
    | .exn m => runAttempts atts n (i + 1) (pyLower m)

/-- The post-loop classification in `_call_gemini_with_retries`: the lowered
text of the LAST exception message decides `RATE_LIMIT` vs `OTHER`. -/
def classifyLastMsg (lastMsg : String) : ErrCode :=
  if pyIn "resourceexhausted" lastMsg || pyIn "429" lastMsg ||
     pyIn "rate" lastMsg || pyIn "quota" lastMsg then .RATE_LIMIT else .OTHER

/-- Model of `_call_gemini_with_retries(history, prompt)`.  `globalAllow` is the result
of the token-bucket gate `_global_allow()`; `atts i` is the outcome the
upstream would produce on the `i`-th attempt (0-based). -/
def call_gemini_with_retries (maxRetries : Nat) (globalAllow : Bool)
    (atts : Nat → Attempt) : CallResult :=
  if !globalAllow then ⟨none, some .RATE_LIMIT, 0⟩
  else
    match runAttempts atts maxRetries 0 "" with
    | (some t, _, n) => ⟨some t, none, n⟩
    | (none, lastMsg, n) => ⟨none, some (classifyLastMsg lastMsg), n⟩

/-- A failure message the post-loop classifier would call quota/rate-limit. -/
def quotaClassified (msg : String) : Prop :=
  classifyLastMsg (pyLower msg) = .RATE_LIMIT

instance (msg : String) : Decidable (quotaClassified msg) := by
  unfold quotaClassified; exact inferInstance

/-! ### Dedupe (`_mark_processed_once`) -/

/-- How the dedupe store behaves for one `insert_one` attempt: it either
works (raising `DuplicateKeyError` exactly when the `_id` is already
present), raises `OperationFailure` (the one failure class the function
catches), or raises a connection-class error — an unreachable store raises
`ServerSelectionTimeoutError`, a `ConnectionFailure` subclass, which is NOT
an `OperationFailure` and is not caught. -/
inductive StoreFault
  | healthy
  | opFailure
  | connFailure
  deriving Repr, DecidableEq

/-- Model of `_mark_processed_once(mid)`.  The dedupe collection is modelled
as the list `seen` of already-inserted ids.  `insert_one` on an id with a
unique `_id` index is a single atomic insert-if-absent: it raises
`DuplicateKeyError` exactly when the id is already present, which the model
expresses by branching on membership in `seen` within the one operation.
The function catches only `DuplicateKeyError` (returning `False`) and
`OperationFailure` (returning `True`); a connection-class error from an
unreachable store propagates out of the function, modelled as
`Except.error` — there is no fail-open on that path.  On `.ok`, returns the
boolean result together with the store contents afterwards. -/
def mark_processed_once (seen : List String) (fault : StoreFault)
    (mid : Option String) : Except String (Bool × List String) :=
  match mid with
  | none => .ok (true, seen)
  | some m =>
    if m = "" then .ok (true, seen)
    else
      match fault with
      | .healthy =>
        if m ∈ seen then .ok (false, seen) else .ok (true, m :: seen)
      | .opFailure => .ok (true, seen)
      | .connFailure => .error "ServerSelectionTimeoutError"

/-! ### History entries and context assembly (`_build_gemini_history`) -/

/-- One `{r, t}` turn stored in a user's `history`. -/
structure Turn where
  r : String
  t : String
  deriving Repr, DecidableEq

/-- An element of the stored `history` array: either a dict whose `r` and `t`
are both strings (a `Turn`), or anything else (a non-dict, or a dict with a
missing/non-string field), which every consumer in the code skips. -/
inductive HistEntry
  | valid (tn : Turn)
  | junk
  deriving Repr, DecidableEq

/-- One `{role, parts}` message handed to Gemini. -/
structure GTurn where
  role : String
  parts : List String
  deriving Repr, DecidableEq

/-- Model of `_build_gemini_history(summary, tail)`, written as the source's
append-loop over `tail` folded onto the optional leading summary pair. -/
def build_gemini_history (summary : String) (tail : List HistEntry) : List GTurn :=
  let out : List GTurn :=
    if summary ≠ "" ∧ pyStrip summary ≠ "" then
      [⟨"user", ["Conversation summary (context only):\n" ++ pyStrip summary]⟩,
       ⟨"model", ["Understood."]⟩]
    else []
  tail.foldl (fun acc m =>
    match m with
    | .valid tn =>
        if (tn.r = "user" ∨ tn.r = "model") ∧ pyStrip tn.t ≠ "" then
          acc ++ [⟨tn.r, [tn.t]⟩]
        else acc
    | .junk => acc) out

/-- The filter a tail entry must pass in `_build_gemini_history` to be kept,
and the Gemini turn it is kept as. -/
def keepTailEntry : HistEntry → Option GTurn
  | .valid tn =>
      if (tn.r = "user" ∨ tn.r = "model") ∧ pyStrip tn.t ≠ "" then
        some ⟨tn.r, [tn.t]⟩
      else none
  | .junk => none

/-- The full context the chat path sends upstream: `_build_gemini_history`
output as `start_chat(history=...)`, with the new message delivered last via
`send_message(prompt)` (hence final user turn). -/
def assemble (summary : String) (tail : List HistEntry) (newMessage : String) :
    List GTurn :=
  build_gemini_history summary tail ++ [⟨"user", [newMessage]⟩]

/-! ### Summarization (`_format_msgs_for_summary`, `_summarize_fold`) -/

/-- Model of `_format_msgs_for_summary(msgs, max_chars=12000)`: renders the chunk as a
flat `USER:`/`ASSISTANT:` transcript, stopping before the line that would
push the total past `max_chars`. -/
def format_msgs_for_summary (msgs : List HistEntry) (maxChars : Nat := 12000) : String :=
  let step : List String × Nat × Bool → HistEntry → List String × Nat × Bool :=
    fun (lines, total, stopped) m =>
      if stopped then (lines, total, stopped)
      else
        match m with
        | .junk => (lines, total, stopped)
        | .valid tn =>
            if tn.r = "user" ∨ tn.r = "model" then
              let pre := if tn.r = "user" then "USER" else "ASSISTANT"
              let chunk := pre ++ ": " ++ pyStrip tn.t ++ "\n"
              if maxChars < total + chunk.length then (lines, total, true)
              else (lines ++ [chunk], total + chunk.length, stopped)
            else (lines, total, stopped)
  (msgs.foldl step ([], 0, false)).1.foldl (· ++ ·) ""

/-- The 3-character marker the source appends after truncating a summary
(the file's bytes spell the ellipsis as the three characters `â`, `€`, `¦`). -/
def TRUNC_MARKER : String := "â€¦"

/-- Model of `_summarize_fold(existing_summary, new_msgs)`.  The Gemini response is
the environment input `(globalAllow, atts)` exactly as in
`call_gemini_with_retries`; the prompt text itself does not influence the
modelled outcome.  Returns `none` when the upstream produced no text. -/
def summarize_fold (cfg : Config) (globalAllow : Bool) (atts : Nat → Attempt)
    (existingSummary : String) (newMsgs : List HistEntry) : Option String :=
  let transcript := format_msgs_for_summary newMsgs
  let _prompt :=
    "Update the rolling conversation summary using NEW TRANSCRIPT.\n" ++
    "Rules: concise; preserve decisions/preferences; no identifiers; no long quotes.\n" ++
    "Output ONLY updated summary.\n\n" ++
    "EXISTING SUMMARY:\n" ++ pyStrip existingSummary ++ "\n\n" ++
    "NEW TRANSCRIPT:\n" ++ transcript ++ "\n"
  let res := call_gemini_with_retries cfg.GEMINI_MAX_RETRIES globalAllow atts
  match res.text with
  | none => none
  | some t =>
    if t = "" then none
    else
      let t := pyStrip t
      if cfg.SUMMARY_MAX_CHARS < t.length then
        some (pyRstrip ⟨t.data.take cfg.SUMMARY_MAX_CHARS⟩ ++ TRUNC_MARKER)
      else some t

/-! ### Store writes and sends performed by the service -/

/-- Database writes and outbound sends, recorded so theorems can speak about
which store operations a code path performs.  `setSummary` is the single
`update_one` that sets the `(summary, summarized_upto, last_summary_at)`
triple together. -/
inductive Action
  | pushPair (uid userText modelText : String)
  | setLastRateLimitAt (uid : String) (t : ℚ)
  | setSummary (uid : String) (summary : String) (upto : Nat) (ts : ℚ)
  | setLastUserAt (uid : String) (t : ℚ)
  | setMode (uid mode : String)
  | deleteUser (uid : String)
  | sendText (dest body : String)
  | sendModeButtons (dest : String)
  | sendGeneratedImage (dest prompt : String)
  deriving Repr, DecidableEq

/-- A user document as fetched by `find_one` (fields may be missing from the
document or of the wrong runtime type, which the code sanitizes; `none`
models a missing or wrongly-typed field). -/
structure SessionDoc where
  history : Option (List HistEntry)
  summary : Option String
  summarized_upto : Option Int
  last_summary_at : Option ℚ
  last_rate_limit_at : Option ℚ

/-- Environment of one `_maybe_update_summary` run: the `time.time()` it
reads, the Gemini oracle for its single fold call, and whether the
`users.update_one` write succeeds. -/
structure SummEnv where
  now : ℚ
  globalAllow : Bool
  atts : Nat → Attempt
  dbOk : Bool

/-- Model of `_maybe_update_summary(uid, doc, skip_if_rate_limited)`.  Returns the
`(summary, summarized_upto)` pair the caller would see, plus the store
operations performed. -/
def maybe_update_summary (cfg : Config) (env : SummEnv) (uid : String)
    (doc : SessionDoc) (skip_if_rate_limited : Bool) :
    (String × Nat) × List Action :=
  let history := doc.history.getD []
  let summary := doc.summary.getD ""
  -- `if not isinstance(summarized_upto, int) or summarized_upto < 0: 0`
  let summarized_upto : Nat := (doc.summarized_upto.getD 0).toNat
  let last_summary_at := doc.last_summary_at.getD 0
  let now := env.now
  if now - last_summary_at < cfg.SUMMARY_COOLDOWN_SECONDS then
    ((summary, summarized_upto), [])
  else if skip_if_rate_limited then
    ((summary, summarized_upto), [])
  else
    let total := history.length
    if total ≤ cfg.CONTEXT_TURNS then ((summary, summarized_upto), [])
    else
      -- `tail_start = max(0, total - CONTEXT_TURNS)` is ℕ-subtraction here
      let eligible_end := total - cfg.CONTEXT_TURNS
      if eligible_end ≤ summarized_upto then ((summary, summarized_upto), [])
      else
        let new_count := eligible_end - summarized_upto
        if new_count < cfg.SUMMARIZE_MIN_NEW then ((summary, summarized_upto), [])
        else
          let chunk_end := min eligible_end (summarized_upto + cfg.SUMMARIZE_MAX_CHUNK)
          let chunk := (history.take chunk_end).drop summarized_upto
          match summarize_fold cfg env.globalAllow env.atts summary chunk with
          | none => ((summary, summarized_upto), [])
          | some updated =>
            if updated = "" then ((summary, summarized_upto), [])
            else if env.dbOk then
              ((updated, chunk_end), [.setSummary uid updated chunk_end now])
            else ((summary, summarized_upto), [])

/-! ### Chat path (`get_chat_response`) -/

/-- Environment of one `get_chat_response` run.  `outerFail` injects an
exception from an unmodelled source inside the outer `try` (e.g. the session
store raising), which the function catches.  `doc2` is the re-fetched
document used for the summary decision (in reality it includes the turns
just pushed; here it is an arbitrary input). -/
structure ChatEnv where
  outerFail : Bool
  doc : SessionDoc
  globalAllow : Bool
  atts : Nat → Attempt
  nowRL : ℚ
  doc2 : SessionDoc
  now2 : ℚ
  summEnv : SummEnv

/-- Model of `get_chat_response(uid, prompt)`: returns the reply text for the user and
the store operations performed, in order. -/
def get_chat_response (cfg : Config) (env : ChatEnv) (uid prompt : String) :
    String × List Action :=
  if env.outerFail then (cfg.GENERIC_FAIL_MESSAGE, [])
  else
    let history := env.doc.history.getD []
    let summary := env.doc.summary.getD ""
    -- `history[-CONTEXT_TURNS:] if CONTEXT_TURNS > 0 else []`
    let tail := if 0 < cfg.CONTEXT_TURNS then
        history.drop (history.length - cfg.CONTEXT_TURNS)
      else []
    let _gemini_hist := build_gemini_history summary tail
    let res := call_gemini_with_retries cfg.GEMINI_MAX_RETRIES env.globalAllow env.atts
    match res.text with
    | none =>
      if res.err = some .RATE_LIMIT then
        (cfg.RATE_LIMIT_MESSAGE, [.setLastRateLimitAt uid env.nowRL])
      else (cfg.GENERIC_FAIL_MESSAGE, [])
    | some text =>
      let last_rl := env.doc2.last_rate_limit_at
      let skip_summary := env.now2 - last_rl.getD 0 < 120
      let summRes := maybe_update_summary cfg env.summEnv uid env.doc2 skip_summary
      (text, .pushPair uid prompt text :: summRes.2)

/-! ### Image-intent detection and webhook dispatcher  -/

/-- Model of `looks_like_image_request(text)`. -/
def looks_like_image_request (text : String) : Bool :=
  let t := pyLower text
  ["generate image", "create image", "make an image", "generate a picture",
   "create a picture", "draw", "make a picture",
   "turn this into an image"].any (fun x => pyIn x t)

/-- One element of `value["messages"]`.  `sender` is the payload's `from`
field, `mtype` its `type`; `buttonReplyId` is
`msg["interactive"]["button_reply"]["id"]`, with `none` standing for the
`KeyError` path; `textBody` is `(msg.get("text") or {}).get("body", "")`
with `none` for a missing body. -/
structure WAMessage where
  id : Option String
  sender : Option String
  mtype : Option String
  buttonReplyId : Option String
  textBody : Option String

/-- One element of `entry["changes"]`: `hasStatuses` is `"statuses" in val`. -/
structure WAChange where
  hasStatuses : Bool
  messages : List WAMessage

/-- One element of `data["entry"]`. -/
structure WAEntry where
  changes : List WAChange

/-- The webhook POST body (after `request.get_json(silent=True) or {}`). -/
structure Payload where
  entry : List WAEntry

/-- The `find_one({"_id": sender}, {"mode": 1, "last_user_at": 1}) or {}`
projection read before the cooldown check. -/
structure ModeDoc where
  mode : Option String
  last_user_at : Option ℚ

/-- Per-message environment inside the webhook loop: its `time.time()`, the
fetched mode/cooldown projection, the dedupe store's behaviour for this
message's insert attempt, the chat-path environment, and an injected
exception from any unmodelled source. -/
structure MsgEnv where
  raiseInternal : Bool
  dedupeFault : StoreFault
  now : ℚ
  doc : ModeDoc
  chatEnv : ChatEnv

/-- The body of the innermost `for msg in val.get("messages", [])` loop.
`seen` is the dedupe store; returns the store afterwards and the actions
performed for this message, or propagates the uncaught exception an
unreachable dedupe store raises inside `_mark_processed_once`. -/
def handle_msg (cfg : Config) (e : MsgEnv) (m : WAMessage) (seen : List String) :
    Except String (List String × List Action) :=
  match mark_processed_once seen e.dedupeFault m.id with
  | .error exc => .error exc
  | .ok mp =>
  let seen' := mp.2
  .ok <|
  if mp.1 = false then (seen', [])
  else
    match m.sender with
    | none => (seen', [])
    | some sender =>
      let now := e.now
      let doc := e.doc
      let last_user_at := doc.last_user_at.getD 0
      if now - last_user_at < cfg.USER_COOLDOWN_SECONDS then (seen', [])
      else
        let acc := [Action.setLastUserAt sender now]
        if m.mtype = some "interactive" then
          match m.buttonReplyId with
          | some bid =>
              let mode := if bid = "IMG_MODE" then "img" else "chat"
              (seen', acc ++ [.setMode sender mode,
                              .sendText sender ("Mode set to " ++ mode ++ ".")])
          | none => (seen', acc ++ [.sendText sender "Could not read button reply."])
        else if m.mtype ≠ some "text" then (seen', acc)
        else
          let txt := pyStrip (m.textBody.getD "")
          if txt = "" then (seen', acc)
          else if doc.mode = none then (seen', acc ++ [.sendModeButtons sender])
          else
            let low := pyLower txt
            if low.startsWith "/imggen" then
              let prompt := pyStrip (txt.drop 7)
              if prompt = "" then
                (seen', acc ++ [.sendText sender "Usage: /imggen your prompt here"])
              else (seen', acc ++ [.sendGeneratedImage sender prompt])
            else if low.startsWith "/mode" then
              let arg := pyStrip (low.drop 5)
              if arg = "chat" ∨ arg = "img" then
                (seen', acc ++ [.setMode sender arg,
                                .sendText sender ("Mode set to " ++ arg ++ ".")])
              else (seen', acc ++ [.sendText sender "Usage: /mode chat  OR  /mode img"])
            else if low = "/reset" then
              (seen', acc ++ [.deleteUser sender, .sendText sender "memory wiped from db"])
            else if looks_like_image_request txt then
              (seen', acc ++ [.sendGeneratedImage sender txt])
            else if doc.mode = some "img" then
              (seen', acc ++ [.sendGeneratedImage sender txt])
            else
              let r := get_chat_response cfg e.chatEnv sender txt
              (seen', acc ++ r.2 ++ [.sendText sender r.1])

/-- The messages the nested `entry`/`changes` loops visit, in order: changes
carrying a `statuses` key are skipped whole (`continue`). -/
def inboundMessages (p : Payload) : List WAMessage :=
  ((p.entry.flatMap (·.changes)).filter (fun c => !c.hasStatuses)).flatMap (·.messages)

/-- Sequential processing of the flattened message list; `envs i` is the
environment of the `i`-th message.  An injected exception aborts the loop
and propagates to the handler's `except` clause. -/
def processMsgList (cfg : Config) (envs : Nat → MsgEnv) :
    List WAMessage → Nat × List String × List Action →
    Except String (Nat × List String × List Action)
  | [], st => .ok st
  | m :: rest, (i, seen, acts) =>
    if (envs i).raiseInternal then .error "webhook_failed"
    else
      match handle_msg cfg (envs i) m seen with
      | .error exc => .error exc
      | .ok r => processMsgList cfg envs rest (i + 1, r.1, acts ++ r.2)

/-- The `POST /webhook` handler `inbound()`: returns the HTTP status code and
response body text.  Both the normal path and the `except` clause return
`jsonify({"status": "ok"}), 200`. -/
def inbound (cfg : Config) (envs : Nat → MsgEnv) (seen : List String)
    (p : Payload) : Nat × String :=
  match processMsgList cfg envs (inboundMessages p) (0, seen, []) with
  | .ok _ => (200, "ok")
  | .error _ => (200, "ok")

/-! ### Sanitized values read by the summarizer -/

/-- The sanitized `history` read by `_maybe_update_summary`. -/
def sanHistory (doc : SessionDoc) : List HistEntry := doc.history.getD []

/-- The sanitized `summarized_upto` read by `_maybe_update_summary`
(missing, non-int or negative values become 0). -/
def sanUpto (doc : SessionDoc) : Nat := (doc.summarized_upto.getD 0).toNat

/-- The `eligible_end` (= `tail_start`) value: everything before the live tail. -/
def eligibleEnd (cfg : Config) (doc : SessionDoc) : Nat :=
  (sanHistory doc).length - cfg.CONTEXT_TURNS

/-- The `chunk_end` value: where the next fold would advance `summarized_upto` to. -/
def chunkEnd (cfg : Config) (doc : SessionDoc) : Nat :=
  min (eligibleEnd cfg doc) (sanUpto doc + cfg.SUMMARIZE_MAX_CHUNK)

/-- The chunk `history[summarized_upto:chunk_end]` the next fold would take. -/
def theChunk (cfg : Config) (doc : SessionDoc) : List HistEntry :=
  ((sanHistory doc).take (chunkEnd cfg doc)).drop (sanUpto doc)

/-! ## Sample environments used by concrete witnesses -/

/-- A session document with every field absent. -/
def emptyDoc : SessionDoc where
  history := none
  summary := none
  summarized_upto := none
  last_summary_at := none
  last_rate_limit_at := none

/-- A summarization environment whose upstream immediately answers `"S"`. -/
def sampleSummEnv : SummEnv where
  now := 1000
  globalAllow := true
  atts := fun _ => .ok "S"
  dbOk := true

/-- A healthy chat environment over an empty session. -/
def sampleChatEnv : ChatEnv where
  outerFail := false
  doc := emptyDoc
  globalAllow := true
  atts := fun _ => .ok "hi"
  nowRL := 1000
  doc2 := emptyDoc
  now2 := 1000
  summEnv := sampleSummEnv

/-- A per-message environment: healthy stores, `time.time() = 1`, a user whose
`last_user_at` is `0` and whose mode is unset. -/
def sampleMsgEnv : MsgEnv where
  raiseInternal := false
  dedupeFault := .healthy
  now := 1
  doc := { mode := none, last_user_at := some 0 }
  chatEnv := sampleChatEnv

/-- The attempt oracle of the C1 counterexample: the first upstream attempt
raises a quota error, the second succeeds. -/
def quotaThenOk : Nat → Attempt
  | 0 => .exn "429 ResourceExhausted: quota exceeded"
  | _ => .ok "hello"

/-- The spec scenario's configuration: tail window `K = 8`, minimum new
turns 20 (both env-overridable). -/
def cfg6 : Config := { defaultConfig with CONTEXT_TURNS := 8, SUMMARIZE_MIN_NEW := 20 }

/-- A session with 30 stored turns and nothing summarized yet. -/
def doc30 : SessionDoc where
  history := some (List.replicate 30 (.valid ⟨"user", "x"⟩))
  summary := none
  summarized_upto := some 0
  last_summary_at := none
  last_rate_limit_at := none

/-- The same session after the fold and 5 more turns: 35 turns,
`summarized_upto = 22`. -/
def doc35 : SessionDoc :=
  { doc30 with history := some (List.replicate 35 (.valid ⟨"user", "x"⟩)),
               summarized_upto := some 22 }

/-- A 3501-character candidate summary, one over the default cap. -/
def bigText : String := ⟨List.replicate 3501 'a'⟩

/-- A tiny configuration (`K = 1`, fold after 1 new turn) for the C4
witness. -/
def cfgW : Config :=
  { defaultConfig with CONTEXT_TURNS := 1, SUMMARIZE_MIN_NEW := 1 }

/-- A two-turn session, nothing summarized yet. -/
def docW : SessionDoc where
  history := some (List.replicate 2 (.valid ⟨"user", "x"⟩))
  summary := none
  summarized_upto := some 0
  last_summary_at := none
  last_rate_limit_at := none

/-! ## Basic lemmas -/

lemma pyStrip_empty : pyStrip "" = "" := rfl

lemma ne_empty_of_pyStrip_ne {s : String} (h : pyStrip s ≠ "") : s ≠ "" := by
  intro hs; exact h (hs ▸ pyStrip_empty)

/-! ## Claims -/

/-- C2 as stated is false on the code: when the backing store is unreachable
the insert raises `ServerSelectionTimeoutError` (a `ConnectionFailure`
subclass), which `except OperationFailure` does not catch, so
`_mark_processed_once` does not return `true` — it propagates the exception
(and the webhook catch-all then drops the message). -/
theorem C2_counterexample :
    mark_processed_once [] StoreFault.connFailure (some "wamid.123") =
      .error "ServerSelectionTimeoutError" ∧
    (mark_processed_once [] StoreFault.connFailure (some "wamid.123")).toOption =
      none := by
  exact ⟨rfl, rfl⟩

/-- C2 amended: `_mark_processed_once(mid)` returns `true` iff `mid` was
never seen before (recording it in the single atomic insert-if-absent),
`false` for a repeated id, `true` without recording for a missing (`None`)
or empty id, and `true` (fail open) only when the backing store raises
`OperationFailure`; a connection-class error from an unreachable store is
not caught and propagates out of the function instead of failing open. -/
theorem C2_mark_processed_once (seen : List String) (m : String) (hm : m ≠ "") :
    (mark_processed_once seen .healthy (some m) = .ok (true, m :: seen) ↔
      m ∉ seen) ∧
    (m ∈ seen → mark_processed_once seen .healthy (some m) = .ok (false, seen)) ∧
    (∀ fault, mark_processed_once seen fault none = .ok (true, seen)) ∧
    (∀ fault, mark_processed_once seen fault (some "") = .ok (true, seen)) ∧
    mark_processed_once seen .opFailure (some m) = .ok (true, seen) ∧
    mark_processed_once seen .connFailure (some m) =
      .error "ServerSelectionTimeoutError" := by
  by_cases hmem : m ∈ seen <;>
    simp [mark_processed_once, hm, hmem]

/-- Witness for the amended C2 at the spec's own scenario id `"wamid.123"`. -/
theorem C2_mark_processed_once_witness :
    (mark_processed_once [] .healthy (some "wamid.123") =
        .ok (true, ["wamid.123"]) ↔ "wamid.123" ∉ ([] : List String)) ∧
    ("wamid.123" ∈ ([] : List String) →
      mark_processed_once [] .healthy (some "wamid.123") = .ok (false, [])) ∧
    (∀ fault, mark_processed_once [] fault none = .ok (true, [])) ∧
    (∀ fault, mark_processed_once [] fault (some "") = .ok (true, [])) ∧
    mark_processed_once [] .opFailure (some "wamid.123") = .ok (true, []) ∧
    mark_processed_once [] .connFailure (some "wamid.123") =
      .error "ServerSelectionTimeoutError" :=
  C2_mark_processed_once [] "wamid.123" (by decide)

/-- C8: the `POST /webhook` handler acknowledges with HTTP 200 and body
`{"status": "ok"}` for every payload shape, every environment, and also when
an internal processing error aborts the loop (the `except` clause). -/
theorem C8_inbound_always_200 (cfg : Config) (envs : Nat → MsgEnv)
    (seen : List String) (p : Payload) :
    inbound cfg envs seen p = (200, "ok") := by
  unfold inbound
  cases processMsgList cfg envs (inboundMessages p) (0, seen, []) <;> rfl

/-- C9: a non-duplicate message whose sender's `last_user_at` is strictly
less than `USER_COOLDOWN_SECONDS` before `now` is dropped silently: the
handler performs no send and no session-store write for it (only the dedupe
marker, a different store, was recorded). -/
theorem C9_cooldown_silent_drop (cfg : Config) (e : MsgEnv) (m : WAMessage)
    (seen seen' : List String) (sender : String) (l : ℚ)
    (hfresh : mark_processed_once seen e.dedupeFault m.id = .ok (true, seen'))
    (hs : m.sender = some sender)
    (hl : e.doc.last_user_at = some l)
    (hcd : e.now - l < cfg.USER_COOLDOWN_SECONDS) :
    handle_msg cfg e m seen = .ok (seen', []) := by
  unfold handle_msg
  rw [hfresh]
  simp [hs, hl, hcd]

/-- Witness for C9: `now = 1`, `last_user_at = 0`, cooldown 2s. -/
theorem C9_cooldown_silent_drop_witness :
    handle_msg defaultConfig sampleMsgEnv
      { id := some "w1", sender := some "alice", mtype := some "text",
        buttonReplyId := none, textBody := some "hello" } [] =
      .ok (["w1"], []) :=
  C9_cooldown_silent_drop defaultConfig sampleMsgEnv _ [] ["w1"] "alice" 0
    rfl rfl rfl (by norm_num [sampleMsgEnv, defaultConfig])

/-- C10: a non-duplicate, cooldown-clear interactive event whose
`button_reply.id` parses sets the user's mode to `"img"` exactly when the id
is `"IMG_MODE"`, and to `"chat"` for every other id; the selection is never
rejected, only acknowledged with a `Mode set to ...` text. -/
theorem C10_button_mode (cfg : Config) (e : MsgEnv) (m : WAMessage)
    (seen seen' : List String) (sender bid : String)
    (hfresh : mark_processed_once seen e.dedupeFault m.id = .ok (true, seen'))
    (hs : m.sender = some sender)
    (hcd : ¬ (e.now - e.doc.last_user_at.getD 0 < cfg.USER_COOLDOWN_SECONDS))
    (hint : m.mtype = some "interactive")
    (hbid : m.buttonReplyId = some bid) :
    handle_msg cfg e m seen =
      .ok (seen',
        [.setLastUserAt sender e.now,
         .setMode sender (if bid = "IMG_MODE" then "img" else "chat"),
         .sendText sender
           ("Mode set to " ++ (if bid = "IMG_MODE" then "img" else "chat") ++ ".")]) ∧
    ((if bid = "IMG_MODE" then "img" else "chat") = "img" ↔ bid = "IMG_MODE") := by
  constructor
  · unfold handle_msg
    rw [hfresh]
    simp [hs, hcd, hint, hbid]
  · by_cases hb : bid = "IMG_MODE" <;> simp [hb]

/-- Witness for C10 at the unrecognized id `"SOMETHING_ELSE"` (and, inline,
the recognized one via the iff). -/
theorem C10_button_mode_witness :
    handle_msg defaultConfig
      { sampleMsgEnv with now := 10, doc := { mode := some "chat", last_user_at := some 0 } }
      { id := some "w2", sender := some "alice", mtype := some "interactive",
        buttonReplyId := some "SOMETHING_ELSE", textBody := none } [] =
      .ok (["w2"],
        [.setLastUserAt "alice" 10,
         .setMode "alice" (if ("SOMETHING_ELSE" : String) = "IMG_MODE" then "img" else "chat"),
         .sendText "alice"
           ("Mode set to " ++
             (if ("SOMETHING_ELSE" : String) = "IMG_MODE" then "img" else "chat") ++ ".")]) ∧
    ((if ("SOMETHING_ELSE" : String) = "IMG_MODE" then "img" else "chat") = "img" ↔
        ("SOMETHING_ELSE" : String) = "IMG_MODE") :=
  C10_button_mode defaultConfig _ _ [] ["w2"] "alice" "SOMETHING_ELSE"
    rfl rfl (by norm_num [defaultConfig]) rfl rfl

/-- Exhausting the loop over all-failing attempts: `n + 1` attempts starting
at index `i` make `n + 1` upstream calls and end with the lowered text of the
last exception message. -/
lemma runAttempts_all_fail (atts : Nat → Attempt) (msgs : Nat → String)
    (hall : ∀ i, atts i = .exn (msgs i)) :
    ∀ (n i : Nat) (last : String),
      runAttempts atts (n + 1) i last = (none, pyLower (msgs (i + n)), i + n + 1) := by
  intro n
  induction n with
  | zero => intro i last; simp [runAttempts, hall i]
  | succ n ih =>
    intro i last
    have hstep : runAttempts atts (n + 1 + 1) i last =
        runAttempts atts (n + 1) (i + 1) (pyLower (msgs i)) := by
      simp [runAttempts, hall i]
    rw [hstep, ih (i + 1)]
    have : i + 1 + n = i + (n + 1) := by omega
    rw [this]

/-- C1 as stated is false on the code: after a first-attempt failure whose
message is quota-classified, `_call_gemini_with_retries` performs a second
upstream attempt and returns its text — it neither stops retrying nor
returns `RATE_LIMIT` (and no breaker/`openUntil` state exists to trip). -/
theorem C1_counterexample :
    quotaClassified "429 ResourceExhausted: quota exceeded" ∧
    call_gemini_with_retries defaultConfig.GEMINI_MAX_RETRIES true quotaThenOk =
      ⟨some "hello", none, 2⟩ ∧
    (call_gemini_with_retries defaultConfig.GEMINI_MAX_RETRIES true quotaThenOk).err ≠
      some ErrCode.RATE_LIMIT := by
  refine ⟨by decide, by decide, by decide⟩

/-- C1 amended: the client retries EVERY failure (quota-classified or not) up
to `GEMINI_MAX_RETRIES` attempts; only after all attempts fail is the error
classified, from the text of the last exception message (`RATE_LIMIT` iff it
contains a rate-limit keyword); the only pre-call gate is the global token
bucket, which returns `RATE_LIMIT` with zero upstream attempts. -/
theorem C1_retry_through_quota (maxR : Nat) (atts : Nat → Attempt)
    (msg0 t1 : String) (h2 : 2 ≤ maxR) (h0 : atts 0 = .exn msg0)
    (hq : quotaClassified msg0) (h1 : atts 1 = .ok t1) :
    call_gemini_with_retries maxR true atts =
      ⟨some (if pyStrip t1 = "" then "..." else pyStrip t1), none, 2⟩ ∧
    (∀ (atts2 : Nat → Attempt) (msgs : Nat → String),
      (∀ i, atts2 i = .exn (msgs i)) →
      call_gemini_with_retries maxR true atts2 =
        ⟨none, some (classifyLastMsg (pyLower (msgs (maxR - 1)))), maxR⟩) ∧
    (∀ atts3 : Nat → Attempt,
      call_gemini_with_retries maxR false atts3 = ⟨none, some .RATE_LIMIT, 0⟩) := by
  refine ⟨?_, ?_, fun atts3 => rfl⟩
  · obtain ⟨k, rfl⟩ : ∃ k, maxR = k + 2 := ⟨maxR - 2, by omega⟩
    simp [call_gemini_with_retries, runAttempts, h0, h1]
  · intro atts2 msgs hall
    obtain ⟨k, rfl⟩ : ∃ k, maxR = k + 1 := ⟨maxR - 1, by omega⟩
    simp [call_gemini_with_retries, runAttempts_all_fail atts2 msgs hall k 0]

/-- Witness for the amended C1 at the counterexample's oracle. -/
theorem C1_retry_through_quota_witness :
    call_gemini_with_retries 4 true quotaThenOk =
      ⟨some (if pyStrip "hello" = "" then "..." else pyStrip "hello"), none, 2⟩ :=
  (C1_retry_through_quota 4 quotaThenOk "429 ResourceExhausted: quota exceeded" "hello"
    (by decide) rfl (by decide) rfl).1

/-- The append-loop of `_build_gemini_history` is the `keepTailEntry`
filter-map appended to whatever precedes it. -/
lemma build_loop_eq (tail : List HistEntry) :
    ∀ init : List GTurn,
      tail.foldl (fun acc m =>
        match m with
        | .valid tn =>
            if (tn.r = "user" ∨ tn.r = "model") ∧ pyStrip tn.t ≠ "" then
              acc ++ [⟨tn.r, [tn.t]⟩]
            else acc
        | .junk => acc) init = init ++ tail.filterMap keepTailEntry := by
  induction tail with
  | nil => intro init; simp
  | cons m rest ih =>
    intro init
    cases m with
    | junk => simp [List.filterMap_cons, keepTailEntry, ih]
    | valid tn =>
      by_cases h : (tn.r = "user" ∨ tn.r = "model") ∧ pyStrip tn.t ≠ "" <;>
        simp [List.filterMap_cons, keepTailEntry, h, ih, List.append_assoc]

/-- C7 as stated is false on the code: with the non-empty (whitespace-only)
summary `"  "` and a tail holding the well-formed turn `{r: "user", t: " "}`,
the assembled context contains neither the leading summary pair nor the tail
turn — the summary test is on the STRIPPED text, and blank tail turns are
filtered out rather than passed verbatim. -/
theorem C7_counterexample :
    ("  " : String) ≠ "" ∧
    assemble "  " [HistEntry.valid ⟨"user", " "⟩] "hi" =
      [⟨"user", ["hi"]⟩] := by
  refine ⟨by decide, by decide⟩

/-- C7 amended: `assemble` is a pure function; it emits the leading synthetic
summary pair iff the summary has a non-whitespace character, then the tail
entries in order — dropping entries that are malformed, have a role other
than `user`/`model`, or whose text strips to empty, and passing every other
entry verbatim — and the new message is the final user turn. -/
theorem C7_assemble_shape (summary : String) (tail : List HistEntry)
    (newMessage : String) :
    assemble summary tail newMessage =
      (if pyStrip summary = "" then [] else
        [⟨"user", ["Conversation summary (context only):\n" ++ pyStrip summary]⟩,
         ⟨"model", ["Understood."]⟩]) ++
      tail.filterMap keepTailEntry ++ [⟨"user", [newMessage]⟩] := by
  unfold assemble build_gemini_history
  rw [build_loop_eq]
  by_cases h : pyStrip summary = ""
  · have hs : ¬ (summary ≠ "" ∧ pyStrip summary ≠ "") := by
      intro hc; exact hc.2 h
    simp [hs, h]
  · have hs : summary ≠ "" ∧ pyStrip summary ≠ "" :=
      ⟨ne_empty_of_pyStrip_ne h, h⟩
    simp [hs, h, List.append_assoc]

/-! ## Summarization lemmas -/

lemma length_dropWhile_le' (p : Char → Bool) (l : List Char) :
    (l.dropWhile p).length ≤ l.length := by
  induction l with
  | nil => simp
  | cons a t ih =>
    by_cases h : p a <;> simp [List.dropWhile_cons, h]
    omega

lemma rstripL_length_le (l : List Char) : (rstripL l).length ≤ l.length := by
  unfold rstripL
  calc ((l.reverse.dropWhile Char.isWhitespace).reverse).length
      = (l.reverse.dropWhile Char.isWhitespace).length := List.length_reverse _
    _ ≤ l.reverse.length := length_dropWhile_le' _ _
    _ = l.length := List.length_reverse _

/-- Everything `_summarize_fold` can return is at most `SUMMARY_MAX_CHARS`
plus the 3-character truncation marker in length. -/
lemma summarize_fold_length (cfg : Config) (ga : Bool) (atts : Nat → Attempt)
    (ex : String) (msgs : List HistEntry) (s : String)
    (h : summarize_fold cfg ga atts ex msgs = some s) :
    s.length ≤ cfg.SUMMARY_MAX_CHARS + TRUNC_MARKER.length := by
  unfold summarize_fold at h
  dsimp only at h
  cases hres : (call_gemini_with_retries cfg.GEMINI_MAX_RETRIES ga atts).text with
  | none => rw [hres] at h; exact absurd h (by simp)
  | some t =>
    rw [hres] at h
    dsimp only at h
    by_cases ht : t = ""
    · simp [ht] at h
    · rw [if_neg ht] at h
      by_cases hlen : cfg.SUMMARY_MAX_CHARS < (pyStrip t).length
      · rw [if_pos hlen] at h
        have hs : s = pyRstrip ⟨(pyStrip t).data.take cfg.SUMMARY_MAX_CHARS⟩ ++ TRUNC_MARKER :=
          (Option.some_injective _ h).symm
        rw [hs, String.length_append]
        have h1 : (pyRstrip ⟨(pyStrip t).data.take cfg.SUMMARY_MAX_CHARS⟩).length ≤
            cfg.SUMMARY_MAX_CHARS := by
          unfold pyRstrip
          rw [String.length_mk]
          calc (rstripL (String.mk ((pyStrip t).data.take cfg.SUMMARY_MAX_CHARS)).data).length
              ≤ (String.mk ((pyStrip t).data.take cfg.SUMMARY_MAX_CHARS)).data.length :=
                rstripL_length_le _
            _ ≤ cfg.SUMMARY_MAX_CHARS := by
                simp [List.length_take]
        omega
      · rw [if_neg hlen] at h
        have hs : s = pyStrip t := (Option.some_injective _ h).symm
        rw [hs]; omega

/-- The fold `_summarize_fold` fails exactly when the upstream call produced no text. -/
lemma summarize_fold_none (cfg : Config) (ga : Bool) (atts : Nat → Attempt)
    (ex : String) (msgs : List HistEntry)
    (h : (call_gemini_with_retries cfg.GEMINI_MAX_RETRIES ga atts).text = none) :
    summarize_fold cfg ga atts ex msgs = none := by
  unfold summarize_fold
  dsimp only
  rw [h]

/-- When the upstream call yields usable text, `_summarize_fold` returns a
non-empty summary. -/
lemma summarize_fold_some (cfg : Config) (ga : Bool) (atts : Nat → Attempt)
    (ex : String) (msgs : List HistEntry) (t : String)
    (hcall : (call_gemini_with_retries cfg.GEMINI_MAX_RETRIES ga atts).text = some t)
    (ht : pyStrip t ≠ "") :
    ∃ s', summarize_fold cfg ga atts ex msgs = some s' ∧ s' ≠ "" := by
  unfold summarize_fold
  dsimp only
  rw [hcall]
  dsimp only
  rw [if_neg (ne_empty_of_pyStrip_ne ht)]
  by_cases hlen : cfg.SUMMARY_MAX_CHARS < (pyStrip t).length
  · rw [if_pos hlen]
    refine ⟨_, rfl, ?_⟩
    intro hcontra
    have hl := congrArg String.length hcontra
    rw [String.length_append, String.length_empty] at hl
    have hm : TRUNC_MARKER.length = 3 := by decide
    omega
  · rw [if_neg hlen]
    exact ⟨_, rfl, ht⟩

/-- C5: across any `_maybe_update_summary` run, the sanitized
`summarized_upto` pointer never decreases; if it respected the bound
`summarizedUpTo ≤ max(0, len(history) − K)` before (ℕ-subtraction is that
max), it does after; and when the fold's upstream call failed, summary,
pointer and store are all left untouched. -/
theorem C5_pointer_invariants (cfg : Config) (env : SummEnv) (uid : String)
    (doc : SessionDoc) (skip : Bool) :
    sanUpto doc ≤ (maybe_update_summary cfg env uid doc skip).1.2 ∧
    (sanUpto doc ≤ eligibleEnd cfg doc →
      (maybe_update_summary cfg env uid doc skip).1.2 ≤ eligibleEnd cfg doc) ∧
    ((call_gemini_with_retries cfg.GEMINI_MAX_RETRIES env.globalAllow env.atts).text = none →
      maybe_update_summary cfg env uid doc skip =
        ((doc.summary.getD "", sanUpto doc), [])) := by
  unfold maybe_update_summary eligibleEnd sanHistory sanUpto
  dsimp only
  split_ifs with h1 h2 h3 h4 h5 h6
  · exact ⟨le_refl _, fun h => h, fun _ => rfl⟩
  · exact ⟨le_refl _, fun h => h, fun _ => rfl⟩
  · exact ⟨le_refl _, fun h => h, fun _ => rfl⟩
  · exact ⟨le_refl _, fun h => h, fun _ => rfl⟩
  · exact ⟨le_refl _, fun h => h, fun _ => rfl⟩
  · -- guards passed, `users.update_one` succeeds
    cases hfold : summarize_fold cfg env.globalAllow env.atts (doc.summary.getD "")
        (((doc.history.getD []).take
            (min ((doc.history.getD []).length - cfg.CONTEXT_TURNS)
              ((doc.summarized_upto.getD 0).toNat + cfg.SUMMARIZE_MAX_CHUNK))).drop
          ((doc.summarized_upto.getD 0).toNat)) with
    | none => exact ⟨le_refl _, fun h => h, fun _ => rfl⟩
    | some updated =>
      dsimp only
      by_cases h7 : updated = ""
      · rw [if_pos h7]
        exact ⟨le_refl _, fun h => h, fun _ => rfl⟩
      · rw [if_neg h7]
        refine ⟨by dsimp only; omega, fun hb => by dsimp only; omega, fun hnone => ?_⟩
        rw [summarize_fold_none cfg env.globalAllow env.atts _ _ hnone] at hfold
        exact absurd hfold (by simp)
  · -- guards passed, `users.update_one` raises: state is returned unchanged
    cases hfold : summarize_fold cfg env.globalAllow env.atts (doc.summary.getD "")
        (((doc.history.getD []).take
            (min ((doc.history.getD []).length - cfg.CONTEXT_TURNS)
              ((doc.summarized_upto.getD 0).toNat + cfg.SUMMARIZE_MAX_CHUNK))).drop
          ((doc.summarized_upto.getD 0).toNat)) with
    | none => exact ⟨le_refl _, fun h => h, fun _ => rfl⟩
    | some updated =>
      dsimp only
      by_cases h7 : updated = ""
      · rw [if_pos h7]
        exact ⟨le_refl _, fun h => h, fun _ => rfl⟩
      · rw [if_neg h7]
        exact ⟨le_refl _, fun h => h, fun _ => rfl⟩

/-- Witness for C5 on a concrete empty session (pointer bound holds) and on
a concrete failing upstream (state untouched). -/
theorem C5_pointer_invariants_witness :
    (maybe_update_summary defaultConfig sampleSummEnv "u" emptyDoc false).1.2 ≤
      eligibleEnd defaultConfig emptyDoc ∧
    maybe_update_summary defaultConfig
        { sampleSummEnv with atts := fun _ => .exn "boom" } "u" emptyDoc false =
      ((emptyDoc.summary.getD "", sanUpto emptyDoc), []) := by
  constructor
  · exact (C5_pointer_invariants defaultConfig sampleSummEnv "u" emptyDoc false).2.1
      (by decide)
  · exact (C5_pointer_invariants defaultConfig
      { sampleSummEnv with atts := fun _ => .exn "boom" } "u" emptyDoc false).2.2
      (by decide)

/-- C6: with the summary cooldown elapsed, no recent rate limit
(`skip_if_rate_limited = false`), a healthy store and usable upstream text,
summarization runs exactly when
`len(history) − K − summarizedUpTo ≥ SUMMARIZE_MIN_NEW`: it then advances the
pointer to the end of the chunk capped at `SUMMARIZE_MAX_CHUNK` turns with
one stored update, and otherwise changes nothing. -/
theorem C6_summarize_threshold (cfg : Config) (env : SummEnv) (uid : String)
    (doc : SessionDoc) (t : String)
    (hmin : 1 ≤ cfg.SUMMARIZE_MIN_NEW)
    (hcool : ¬ (env.now - doc.last_summary_at.getD 0 < cfg.SUMMARY_COOLDOWN_SECONDS))
    (hcall : (call_gemini_with_retries cfg.GEMINI_MAX_RETRIES env.globalAllow
        env.atts).text = some t)
    (ht : pyStrip t ≠ "") (hdb : env.dbOk = true) :
    (cfg.SUMMARIZE_MIN_NEW ≤
        (sanHistory doc).length - cfg.CONTEXT_TURNS - sanUpto doc →
      (maybe_update_summary cfg env uid doc false).1.2 = chunkEnd cfg doc ∧
      ∃ s', (maybe_update_summary cfg env uid doc false).2 =
        [Action.setSummary uid s' (chunkEnd cfg doc) env.now]) ∧
    ((sanHistory doc).length - cfg.CONTEXT_TURNS - sanUpto doc <
        cfg.SUMMARIZE_MIN_NEW →
      maybe_update_summary cfg env uid doc false =
        ((doc.summary.getD "", sanUpto doc), [])) := by
  obtain ⟨s', hfold, hs'⟩ := summarize_fold_some cfg env.globalAllow env.atts
    (doc.summary.getD "") (theChunk cfg doc) t hcall ht
  unfold theChunk chunkEnd eligibleEnd sanHistory sanUpto at hfold
  unfold chunkEnd eligibleEnd sanHistory sanUpto
  unfold maybe_update_summary
  dsimp only
  constructor
  · intro hthr
    split_ifs with h1 h2 h3 h4
    · exact h1.elim
    · exfalso; omega
    · exfalso; omega
    · exfalso; omega
    · rw [hfold]
      dsimp only
      rw [if_neg hs']
      exact ⟨rfl, s', rfl⟩
  · intro hlt
    split_ifs with h1 h2 h3
    · exact h1.elim
    · rfl
    · rfl
    · rfl

/-- Witness for C6 at the spec's scenario: 30 turns advance the pointer to
`chunkEnd = min(30−8, 0+60) = 22` with exactly one stored update; 5 further
turns (5 new < 20) leave the state untouched at 22. -/
theorem C6_summarize_threshold_witness :
    ((maybe_update_summary cfg6 sampleSummEnv "u" doc30 false).1.2 =
        chunkEnd cfg6 doc30 ∧
      ∃ s', (maybe_update_summary cfg6 sampleSummEnv "u" doc30 false).2 =
        [Action.setSummary "u" s' (chunkEnd cfg6 doc30) sampleSummEnv.now]) ∧
    chunkEnd cfg6 doc30 = 22 ∧
    maybe_update_summary cfg6 sampleSummEnv "u" doc35 false =
      ((doc35.summary.getD "", sanUpto doc35), []) ∧
    sanUpto doc35 = 22 := by
  refine ⟨(C6_summarize_threshold cfg6 sampleSummEnv "u" doc30 "S"
      (by decide) (by norm_num [sampleSummEnv, doc30, cfg6, defaultConfig])
      (by decide) (by decide) rfl).1 (by decide),
    by decide,
    (C6_summarize_threshold cfg6 sampleSummEnv "u" doc35 "S"
      (by decide) (by norm_num [sampleSummEnv, doc35, doc30, cfg6, defaultConfig])
      (by decide) (by decide) rfl).2 (by decide),
    by decide⟩

/-! ## C4: the summary length cap -/

lemma dropWhile_ws_replicate (n : Nat) :
    (List.replicate n 'a').dropWhile Char.isWhitespace = List.replicate n 'a' := by
  cases n with
  | zero => rfl
  | succ n =>
    rw [List.replicate_succ, List.dropWhile_cons]
    simp [show Char.isWhitespace 'a' = false from by decide]

lemma stripL_replicate (n : Nat) :
    stripL (List.replicate n 'a') = List.replicate n 'a' := by
  unfold stripL
  rw [dropWhile_ws_replicate, List.reverse_replicate, dropWhile_ws_replicate,
    List.reverse_replicate]

lemma rstripL_replicate (n : Nat) :
    rstripL (List.replicate n 'a') = List.replicate n 'a' := by
  unfold rstripL
  rw [List.reverse_replicate, dropWhile_ws_replicate, List.reverse_replicate]

/-- A first-attempt success returns that attempt's stripped text (with the
blank placeholder) after exactly one upstream call. -/
lemma call_first_ok (maxR : Nat) (atts : Nat → Attempt) (t : String)
    (h : atts 0 = .ok t) (hm : 1 ≤ maxR) :
    call_gemini_with_retries maxR true atts =
      ⟨some (if pyStrip t = "" then "..." else pyStrip t), none, 1⟩ := by
  obtain ⟨k, rfl⟩ : ∃ k, maxR = k + 1 := ⟨maxR - 1, by omega⟩
  simp [call_gemini_with_retries, runAttempts, h]

/-- C4 as stated is false on the code: a 3501-character candidate is cut to
`SUMMARY_MAX_CHARS = 3500` characters and then the 3-character truncation
marker is appended, so the stored summary has 3503 characters — the cap is
exceeded, not respected. -/
theorem C4_counterexample :
    summarize_fold defaultConfig true (fun _ => .ok bigText) "" [] =
      some ((⟨List.replicate 3500 'a'⟩ : String) ++ TRUNC_MARKER) ∧
    ((⟨List.replicate 3500 'a'⟩ : String) ++ TRUNC_MARKER).length = 3503 ∧
    defaultConfig.SUMMARY_MAX_CHARS = 3500 := by
  have hdata : bigText.data = List.replicate 3501 'a' := rfl
  have hstrip : pyStrip bigText = bigText := by
    unfold pyStrip
    rw [hdata, stripL_replicate]
    rfl
  have hne : bigText ≠ "" := by
    intro h
    have h2 : (3501 : Nat) = 0 :=
      calc (3501 : Nat) = bigText.data.length := by rw [hdata, List.length_replicate]
        _ = ("" : String).data.length := by rw [h]
        _ = 0 := rfl
    norm_num at h2
  have hcall : call_gemini_with_retries defaultConfig.GEMINI_MAX_RETRIES true
      (fun _ => .ok bigText) = ⟨some bigText, none, 1⟩ := by
    rw [call_first_ok defaultConfig.GEMINI_MAX_RETRIES _ bigText rfl (by norm_num [defaultConfig])]
    rw [hstrip, if_neg hne]
  refine ⟨?_, ?_, rfl⟩
  · unfold summarize_fold
    dsimp only
    rw [hcall]
    dsimp only
    rw [if_neg hne, hstrip]
    have hlen : bigText.length = 3501 := by
      rw [show bigText.length = bigText.data.length from rfl, hdata,
        List.length_replicate]
    rw [hlen, if_pos (by norm_num [defaultConfig])]
    have htake : bigText.data.take defaultConfig.SUMMARY_MAX_CHARS =
        List.replicate 3500 'a' := by
      rw [hdata, List.take_replicate]
      norm_num [defaultConfig]
    rw [htake]
    unfold pyRstrip
    rw [show (⟨List.replicate 3500 'a'⟩ : String).data = List.replicate 3500 'a' from rfl,
      rstripL_replicate]
  · rw [String.length_append, String.length_mk, List.length_replicate,
      show TRUNC_MARKER.length = 3 from by decide]

/-- Everything `_maybe_update_summary` writes is one `setSummary` triple for
this user stamped with its `now`, whose summary text came out of
`_summarize_fold`. -/
lemma maybe_ops_shape (cfg : Config) (env : SummEnv) (uid : String)
    (doc : SessionDoc) (skip : Bool) (a : Action)
    (ha : a ∈ (maybe_update_summary cfg env uid doc skip).2) :
    ∃ s u, a = Action.setSummary uid s u env.now ∧
      summarize_fold cfg env.globalAllow env.atts (doc.summary.getD "")
        (theChunk cfg doc) = some s := by
  unfold theChunk chunkEnd eligibleEnd sanHistory sanUpto
  unfold maybe_update_summary at ha
  dsimp only at ha
  split_ifs at ha with h1 h2 h3 h4 h5 h6
  · simp at ha
  · simp at ha
  · simp at ha
  · simp at ha
  · simp at ha
  · -- store write succeeded
    revert ha
    cases hfold : summarize_fold cfg env.globalAllow env.atts (doc.summary.getD "")
        (((doc.history.getD []).take
            (min ((doc.history.getD []).length - cfg.CONTEXT_TURNS)
              ((doc.summarized_upto.getD 0).toNat + cfg.SUMMARIZE_MAX_CHUNK))).drop
          ((doc.summarized_upto.getD 0).toNat)) with
    | none => intro ha; simp at ha
    | some updated =>
      dsimp only
      by_cases h7 : updated = ""
      · rw [if_pos h7]; intro ha; simp at ha
      · rw [if_neg h7]
        intro ha
        rcases List.mem_singleton.mp ha with rfl
        exact ⟨updated, _, rfl, rfl⟩
  · -- store write raised
    revert ha
    cases hfold : summarize_fold cfg env.globalAllow env.atts (doc.summary.getD "")
        (((doc.history.getD []).take
            (min ((doc.history.getD []).length - cfg.CONTEXT_TURNS)
              ((doc.summarized_upto.getD 0).toNat + cfg.SUMMARIZE_MAX_CHUNK))).drop
          ((doc.summarized_upto.getD 0).toNat)) with
    | none => intro ha; simp at ha
    | some updated =>
      dsimp only
      by_cases h7 : updated = ""
      · rw [if_pos h7]; intro ha; simp at ha
      · rw [if_neg h7]; intro ha; simp at ha

/-- C4 amended: after any summary update, the stored summary's length is at
most `SUMMARY_MAX_CHARS` PLUS the 3-character truncation marker (an
over-long candidate is cut to the cap, trailing whitespace stripped, and the
marker appended on top of the cap). -/
theorem C4_summary_cap (cfg : Config) (env : SummEnv) (uid : String)
    (doc : SessionDoc) (skip : Bool) (u' s : String) (u : Nat) (ts : ℚ)
    (h : Action.setSummary u' s u ts ∈ (maybe_update_summary cfg env uid doc skip).2) :
    s.length ≤ cfg.SUMMARY_MAX_CHARS + TRUNC_MARKER.length := by
  obtain ⟨s0, u0, heq, hfold⟩ := maybe_ops_shape cfg env uid doc skip _ h
  injection heq with h1 h2 h3 h4
  rw [h2]
  exact summarize_fold_length cfg env.globalAllow env.atts _ _ s0 hfold

/-- On `cfgW`/`docW` with upstream text `"S"`, the run stores exactly one
summary triple. -/
lemma maybe_update_summary_eval_W :
    (maybe_update_summary cfgW sampleSummEnv "u" docW false).2 =
      [Action.setSummary "u" "S" 1 sampleSummEnv.now] := by
  have hcool : ¬ (sampleSummEnv.now - docW.last_summary_at.getD 0 <
      cfgW.SUMMARY_COOLDOWN_SECONDS) := by
    norm_num [sampleSummEnv, docW, cfgW, defaultConfig]
  unfold maybe_update_summary
  dsimp only
  split_ifs with h1 h2 h3 h4 h5
  · exact h1.elim
  · exact absurd h2 (by decide)
  · exact absurd h3 (by decide)
  · exact absurd h4 (by decide)
  · have hfold : summarize_fold cfgW sampleSummEnv.globalAllow sampleSummEnv.atts
        (docW.summary.getD "")
        (((docW.history.getD []).take
            (min ((docW.history.getD []).length - cfgW.CONTEXT_TURNS)
              ((docW.summarized_upto.getD 0).toNat + cfgW.SUMMARIZE_MAX_CHUNK))).drop
          ((docW.summarized_upto.getD 0).toNat)) = some "S" := by decide
    rw [hfold]
    dsimp only
    rw [if_neg (by decide : ¬("S" : String) = "")]
    norm_num [docW, cfgW, defaultConfig]
  · exact absurd rfl h5

/-- Witness for the amended C4 at a concrete stored update. -/
theorem C4_summary_cap_witness :
    ("S" : String).length ≤ cfgW.SUMMARY_MAX_CHARS + TRUNC_MARKER.length :=
  C4_summary_cap cfgW sampleSummEnv "u" docW false "u" "S" 1 sampleSummEnv.now
    (by rw [maybe_update_summary_eval_W]; exact List.mem_singleton.mpr rfl)

/-- C3: when the upstream call fails, `get_chat_response` performs no
history push at all (no orphaned user turn) and returns one of the two fixed
failure messages; on success it returns the reply text and its first store
operation is the single atomic push of the `(user, assistant)` pair — and no
other history push ever follows it. -/
theorem C3_history_pairs (cfg : Config) (env : ChatEnv) (uid prompt : String)
    (hof : env.outerFail = false) :
    ((call_gemini_with_retries cfg.GEMINI_MAX_RETRIES env.globalAllow
        env.atts).text = none →
      (∀ u a b, Action.pushPair u a b ∉ (get_chat_response cfg env uid prompt).2) ∧
      ((get_chat_response cfg env uid prompt).1 = cfg.RATE_LIMIT_MESSAGE ∨
       (get_chat_response cfg env uid prompt).1 = cfg.GENERIC_FAIL_MESSAGE)) ∧
    (∀ t, (call_gemini_with_retries cfg.GEMINI_MAX_RETRIES env.globalAllow
        env.atts).text = some t →
      (get_chat_response cfg env uid prompt).1 = t ∧
      ∃ rest, (get_chat_response cfg env uid prompt).2 =
        Action.pushPair uid prompt t :: rest ∧
        ∀ u a b, Action.pushPair u a b ∉ rest) := by
  have hops : ∀ (d : SessionDoc) (sk : Bool) (u a b : String),
      Action.pushPair u a b ∉ (maybe_update_summary cfg env.summEnv uid d sk).2 := by
    intro d sk u a b hmem
    obtain ⟨s0, u0, heq, -⟩ := maybe_ops_shape cfg env.summEnv uid d sk _ hmem
    exact Action.noConfusion heq
  unfold get_chat_response
  rw [hof]
  simp only [Bool.false_eq_true, if_false]
  cases hres : (call_gemini_with_retries cfg.GEMINI_MAX_RETRIES env.globalAllow
      env.atts).text with
  | none =>
    dsimp only
    refine ⟨fun _ => ?_, fun t ht => Option.noConfusion ht⟩
    by_cases herr : (call_gemini_with_retries cfg.GEMINI_MAX_RETRIES env.globalAllow
        env.atts).err = some ErrCode.RATE_LIMIT
    · rw [if_pos herr]
      exact ⟨fun u a b hmem => by simp at hmem, Or.inl rfl⟩
    · rw [if_neg herr]
      exact ⟨fun u a b hmem => by simp at hmem, Or.inr rfl⟩
  | some t =>
    dsimp only
    refine ⟨fun h => Option.noConfusion h, fun t' ht' => ?_⟩
    obtain rfl : t = t' := Option.some_injective _ ht'
    exact ⟨rfl, _, rfl, hops env.doc2 _⟩

/-- Witness for C3 on a healthy environment: the reply is the upstream text
and the pair push leads the store operations. -/
theorem C3_history_pairs_witness :
    (get_chat_response defaultConfig sampleChatEnv "u" "ping").1 = "hi" ∧
    ∃ rest, (get_chat_response defaultConfig sampleChatEnv "u" "ping").2 =
      Action.pushPair "u" "ping" "hi" :: rest ∧
      ∀ u a b, Action.pushPair u a b ∉ rest :=
  (C3_history_pairs defaultConfig sampleChatEnv "u" "ping" rfl).2 "hi" (by decide)

end WABot
